import Mathlib

/-!
# Transformation controller of the amphibious robot (transform_task.c)

Shallow embedding of `transform_set_mode` (the mode state machine) and
`transform_set_control` (the actuator command dispatcher) from
`Application/Src/transform_task.c`.

Names used by the specification and the enumerators of the source:

* Init                 = TRANSFORM_INIT
* Stopped              = TRANSFORM_STOP
* Flying               = FLY_STATE
* Grounded             = GROUND_STATE
* GroundToFly_PushRod  = GROUND_TRANSFORM_FLY_PUSH_ROD
* GroundToFly_Servo    = GROUND_TRANSFORM_FLY_SERVO
* FlyToGround_Servo    = FLY_TRANSFORM_GROUND_SERVO
* FlyToGround_PushRod  = FLY_TRANSFORM_GROUND_PUSH_ROD
* previous_state       = last_transform_state
* push_rod_phase_start = push_rog_move_begin_time

The driver calls made by the dispatcher are external; they are recorded, in
program order, as a list of `Cmd`.
-/

namespace Transform

/-- The enumeration `transform_state_e`, with the eight enumerators that
`transform_task.c` uses. -/
inductive transform_state_e
  | TRANSFORM_INIT
  | TRANSFORM_STOP
  | FLY_STATE
  | GROUND_STATE
  | GROUND_TRANSFORM_FLY_PUSH_ROD
  | GROUND_TRANSFORM_FLY_SERVO
  | FLY_TRANSFORM_GROUND_SERVO
  | FLY_TRANSFORM_GROUND_PUSH_ROD
  deriving DecidableEq, Repr

open transform_state_e

/-- Modelled from the spec: the element type of the remote channel array is
declared in `remote_receive.h`, which is not among the sources; the
specification (section 6) describes each channel as a three-position discrete
switch value (up / mid / down). -/
inductive switch_e
  | SW_UP
  | SW_MID
  | SW_DOWN
  deriving DecidableEq, Repr

/-- Modelled from the spec: the test `switch_is_up` comes from the absent
`remote_receive.h`; it holds exactly for the position "up". -/
def switch_is_up : switch_e → Bool
  | switch_e.SW_UP => true
  | _ => false

/-- Modelled from the spec: the test `switch_is_down` comes from the absent
`remote_receive.h`; it holds exactly for the position "down". -/
def switch_is_down : switch_e → Bool
  | switch_e.SW_DOWN => true
  | _ => false

/-- Servo feedback record: the two fields of the servo measurement that the
state machine reads (`move` and `pos`). -/
structure servo_measure_t where
  move : Int
  pos : Int
  deriving DecidableEq, Repr

/-- Compile-time constants used by `transform_task.c`. They are defined in
headers that are not among the sources, so they are parameters of the model. -/
structure Config where
  ALL_MOVE_ENABLE_CHANNEL : Nat
  TRANSFORM_REMOTE_CHANNEL : Nat
  PUSH_ROG_ELONGATE_NEED_TIME : Nat
  PUSH_ROG_SHORTEN_NEED_TIME : Nat
  LEFT_SERVO_FLY_POS : Int
  RIGHT_SERVO_FLY_POS : Int
  LEFT_SERVO_GROUND_POS : Int
  RIGHT_SERVO_GROUND_POS : Int
  LEFT_SERVO_ID : Nat
  RIGHT_SERVO_ID : Nat
  SERVO_SPEED : Int
  SERVO_ACC : Int
  PUSH_ROG_ON_PWM : Int
  deriving DecidableEq, Repr

/-- The control block `transform_control_t`. The three pointer fields
(`servo_left`, `servo_right`, `remote_point`) are represented by the values
they point to at the time of the tick; `remote_point` is the channel array,
indexed by channel number. -/
structure transform_control_t where
  transform_state : transform_state_e
  last_transform_state : transform_state_e
  servo_left : servo_measure_t
  servo_right : servo_measure_t
  remote_point : Nat → switch_e
  push_rog_move_begin_time : Nat

/-- Width of the tick counter (`uint32_t`). -/
def TICK_MOD : Nat := 2 ^ 32

/-- Calls to the actuator drivers made by `transform_set_control`. -/
inductive Cmd
  | left_push_rog_off
  | right_push_rog_off
  | elongate_left_push_rog (pwm : Int)
  | elongate_right_push_rog (pwm : Int)
  | shorten_left_push_rog (pwm : Int)
  | shorten_right_push_rog (pwm : Int)
  | ft_servo_app_torque_enable (id : Nat) (enable : Int)
  | ft_servo_app_write_pos (id : Nat) (pos : Int) (speed : Int) (acc : Int)
  deriving DecidableEq, Repr

/-- The recovery branch of `transform_set_mode` taken when the transform
channel is up (lines 123-140): the switch over `last_transform_state`. -/
def recover_up (c : transform_control_t) : transform_control_t :=
  match c.last_transform_state with
  | FLY_STATE => { c with transform_state := FLY_STATE }
  | GROUND_TRANSFORM_FLY_PUSH_ROD => { c with transform_state := GROUND_TRANSFORM_FLY_PUSH_ROD }
  | FLY_TRANSFORM_GROUND_PUSH_ROD => { c with transform_state := GROUND_TRANSFORM_FLY_PUSH_ROD }
  | GROUND_STATE => { c with transform_state := GROUND_TRANSFORM_FLY_PUSH_ROD }
  | GROUND_TRANSFORM_FLY_SERVO => { c with transform_state := GROUND_TRANSFORM_FLY_SERVO }
  | FLY_TRANSFORM_GROUND_SERVO => { c with transform_state := GROUND_TRANSFORM_FLY_SERVO }
  | _ => c

/-- The recovery branch of `transform_set_mode` taken when the transform
channel is down (lines 142-159): the switch over `last_transform_state`. -/
def recover_down (c : transform_control_t) : transform_control_t :=
  match c.last_transform_state with
  | GROUND_STATE => { c with transform_state := GROUND_STATE }
  | FLY_TRANSFORM_GROUND_SERVO => { c with transform_state := FLY_TRANSFORM_GROUND_SERVO }
  | GROUND_TRANSFORM_FLY_SERVO => { c with transform_state := FLY_TRANSFORM_GROUND_SERVO }
  | FLY_STATE => { c with transform_state := FLY_TRANSFORM_GROUND_SERVO }
  | FLY_TRANSFORM_GROUND_PUSH_ROD => { c with transform_state := FLY_TRANSFORM_GROUND_PUSH_ROD }
  | GROUND_TRANSFORM_FLY_PUSH_ROD => { c with transform_state := FLY_TRANSFORM_GROUND_PUSH_ROD }
  | _ => c

/-- The if / else-if chain of `transform_set_mode` (lines 116-216), before the
final assignment of `last_transform_state`. `now_time` is the tick count read
at line 114; `tick` is the value returned by the later call of
`xTaskGetTickCount()` at line 178 or 208 (at most one of them runs in a tick).
The sums at lines 188 and 211 are taken in 32-bit unsigned arithmetic. -/
def set_mode_body (k : Config) (now_time tick : Nat) (c : transform_control_t) :
    transform_control_t :=
  if switch_is_down (c.remote_point k.ALL_MOVE_ENABLE_CHANNEL) then
    { c with transform_state := TRANSFORM_STOP }
  else if c.transform_state = TRANSFORM_STOP then
    if switch_is_up (c.remote_point k.TRANSFORM_REMOTE_CHANNEL) then
      recover_up c
    else if switch_is_down (c.remote_point k.TRANSFORM_REMOTE_CHANNEL) then
      recover_down c
    else c
  else if c.transform_state = TRANSFORM_INIT then
    { c with transform_state := FLY_TRANSFORM_GROUND_SERVO }
  else if c.transform_state = FLY_STATE ∨ c.transform_state = GROUND_STATE then
    if switch_is_down (c.remote_point k.TRANSFORM_REMOTE_CHANNEL) = true ∧
        c.transform_state = FLY_STATE then
      { c with transform_state := FLY_TRANSFORM_GROUND_SERVO }
    else if switch_is_up (c.remote_point k.TRANSFORM_REMOTE_CHANNEL) = true ∧
        c.transform_state = GROUND_STATE then
      { c with transform_state := GROUND_TRANSFORM_FLY_PUSH_ROD,
               push_rog_move_begin_time := tick }
    else c
  else if c.transform_state = GROUND_TRANSFORM_FLY_PUSH_ROD ∨
      c.transform_state = GROUND_TRANSFORM_FLY_SERVO ∨
      c.transform_state = FLY_TRANSFORM_GROUND_SERVO ∨
      c.transform_state = FLY_TRANSFORM_GROUND_PUSH_ROD then
    if c.transform_state = GROUND_TRANSFORM_FLY_PUSH_ROD ∧
        now_time > (c.push_rog_move_begin_time + k.PUSH_ROG_ELONGATE_NEED_TIME) % TICK_MOD then
      { c with transform_state := GROUND_TRANSFORM_FLY_SERVO }
    else if c.transform_state = GROUND_TRANSFORM_FLY_SERVO ∧
        c.servo_left.move = 0 ∧
        c.servo_left.pos = k.LEFT_SERVO_FLY_POS ∧
        c.servo_right.move = 0 ∧
        c.servo_right.pos = k.RIGHT_SERVO_FLY_POS then
      { c with transform_state := FLY_STATE }
    else if c.transform_state = FLY_TRANSFORM_GROUND_SERVO ∧
        c.servo_left.move = 0 ∧
        c.servo_left.pos = k.LEFT_SERVO_GROUND_POS ∧
        c.servo_right.move = 0 ∧
        c.servo_right.pos = k.RIGHT_SERVO_GROUND_POS then
      { c with transform_state := FLY_TRANSFORM_GROUND_PUSH_ROD,
               push_rog_move_begin_time := tick }
    else if c.transform_state = FLY_TRANSFORM_GROUND_PUSH_ROD ∧
        now_time > (c.push_rog_move_begin_time + k.PUSH_ROG_SHORTEN_NEED_TIME) % TICK_MOD then
      { c with transform_state := GROUND_STATE }
    else c
  else c

/-- The function `transform_set_mode` (lines 111-219): one tick of the state
machine. The state held at entry is copied first and stored in
`last_transform_state` at the end. -/
def transform_set_mode (k : Config) (now_time tick : Nat) (c : transform_control_t) :
    transform_control_t :=
  let state_cpy := c.transform_state
  { set_mode_body k now_time tick c with last_transform_state := state_cpy }

/-- The function `transform_set_control` (lines 226-289): the driver calls it
makes, in program order. -/
def transform_set_control (k : Config) (c : transform_control_t) : List Cmd :=
  match c.transform_state with
  | GROUND_STATE | FLY_STATE | TRANSFORM_STOP | TRANSFORM_INIT =>
    [Cmd.left_push_rog_off, Cmd.right_push_rog_off,
     Cmd.ft_servo_app_torque_enable k.LEFT_SERVO_ID 0,
     Cmd.ft_servo_app_torque_enable k.RIGHT_SERVO_ID 0]
  | FLY_TRANSFORM_GROUND_SERVO =>
    if c.last_transform_state ≠ FLY_TRANSFORM_GROUND_SERVO then
      [Cmd.left_push_rog_off, Cmd.right_push_rog_off,
       Cmd.ft_servo_app_write_pos k.LEFT_SERVO_ID k.LEFT_SERVO_GROUND_POS k.SERVO_SPEED k.SERVO_ACC,
       Cmd.ft_servo_app_write_pos k.RIGHT_SERVO_ID k.LEFT_SERVO_GROUND_POS k.SERVO_SPEED k.SERVO_ACC]
    else []
  | GROUND_TRANSFORM_FLY_SERVO =>
    if c.last_transform_state ≠ GROUND_TRANSFORM_FLY_SERVO then
      [Cmd.left_push_rog_off, Cmd.right_push_rog_off,
       Cmd.ft_servo_app_write_pos k.LEFT_SERVO_ID k.LEFT_SERVO_FLY_POS k.SERVO_SPEED k.SERVO_ACC,
       Cmd.ft_servo_app_write_pos k.RIGHT_SERVO_ID k.RIGHT_SERVO_FLY_POS k.SERVO_SPEED k.SERVO_ACC]
    else []
  | FLY_TRANSFORM_GROUND_PUSH_ROD =>
    if c.last_transform_state ≠ FLY_TRANSFORM_GROUND_PUSH_ROD then
      [Cmd.shorten_left_push_rog k.PUSH_ROG_ON_PWM, Cmd.shorten_right_push_rog k.PUSH_ROG_ON_PWM,
       Cmd.ft_servo_app_torque_enable k.LEFT_SERVO_ID 0,
       Cmd.ft_servo_app_torque_enable k.RIGHT_SERVO_ID 0]
    else []
  | GROUND_TRANSFORM_FLY_PUSH_ROD =>
    if c.last_transform_state ≠ GROUND_TRANSFORM_FLY_PUSH_ROD then
      [Cmd.elongate_left_push_rog k.PUSH_ROG_ON_PWM, Cmd.elongate_right_push_rog k.PUSH_ROG_ON_PWM,
       Cmd.ft_servo_app_torque_enable k.LEFT_SERVO_ID 0,
       Cmd.ft_servo_app_torque_enable k.RIGHT_SERVO_ID 0]
    else []

/-- A concrete configuration used for evaluation: the two channels are 0 and
1, the durations 5 and 7 ticks, and the four target positions are pairwise
different. -/
def sampleConfig : Config :=
  { ALL_MOVE_ENABLE_CHANNEL := 0
    TRANSFORM_REMOTE_CHANNEL := 1
    PUSH_ROG_ELONGATE_NEED_TIME := 5
    PUSH_ROG_SHORTEN_NEED_TIME := 7
    LEFT_SERVO_FLY_POS := 100
    RIGHT_SERVO_FLY_POS := 200
    LEFT_SERVO_GROUND_POS := 300
    RIGHT_SERVO_GROUND_POS := 400
    LEFT_SERVO_ID := 1
    RIGHT_SERVO_ID := 2
    SERVO_SPEED := 1000
    SERVO_ACC := 50
    PUSH_ROG_ON_PWM := 900 }

/-- Channel array holding `en` on the enable channel 0 and `tr` elsewhere. -/
def sampleRemote (en tr : switch_e) : Nat → switch_e :=
  fun i => if i = 0 then en else tr

/-- A concrete control block with the given states, switch positions, servo
feedback and stored push-rod start time. -/
def sampleControl (st last : transform_state_e) (en tr : switch_e)
    (sl sr : servo_measure_t) (t0 : Nat) : transform_control_t :=
  { transform_state := st
    last_transform_state := last
    servo_left := sl
    servo_right := sr
    remote_point := sampleRemote en tr
    push_rog_move_begin_time := t0 }

/-- Servo feedback "at rest at position 0". -/
def restServo : servo_measure_t := { move := 0, pos := 0 }

/-- External data visible to the task during one cycle: the contents of the
remote channel array and of the two servo feedback records (written by other
tasks between cycles), and the two tick-count readings of the cycle. -/
structure cycle_input where
  remote_point : Nat → switch_e
  servo_left : servo_measure_t
  servo_right : servo_measure_t
  now_time : Nat
  tick : Nat

/-- The control block as the task sees it at the start of a cycle: the
pointed-to remote and servo data have the values of this cycle. -/
def load_input (i : cycle_input) (c : transform_control_t) : transform_control_t :=
  { c with remote_point := i.remote_point, servo_left := i.servo_left,
           servo_right := i.servo_right }

/-- One pass of the loop body of `transform_task` (lines 82-83), state part:
`transform_set_mode` on the control block with this cycle's external data. -/
def cycle_state (k : Config) (i : cycle_input) (c : transform_control_t) :
    transform_control_t :=
  transform_set_mode k i.now_time i.tick (load_input i c)

/-- One pass of the loop body of `transform_task` (lines 82-83), command part:
`transform_set_control` applied to the block that `transform_set_mode` left. -/
def cycle_commands (k : Config) (i : cycle_input) (c : transform_control_t) : List Cmd :=
  transform_set_control k (cycle_state k i c)

/-- The control block after running the loop body once for each input. -/
def run_cycles (k : Config) : List cycle_input → transform_control_t → transform_control_t
  | [], c => c
  | i :: is, c => run_cycles k is (cycle_state k i c)

/-- The command lists issued by the successive cycles of a run, one list per
cycle. -/
def run_commands (k : Config) : List cycle_input → transform_control_t → List (List Cmd)
  | [], _ => []
  | i :: is, c => cycle_commands k i c :: run_commands k is (cycle_state k i c)

/-- A cycle input with the given switch positions, servos at rest at position
0 and both tick readings equal to `t`. -/
def sampleInput (en tr : switch_e) (t : Nat) : cycle_input :=
  { remote_point := sampleRemote en tr
    servo_left := restServo
    servo_right := restServo
    now_time := t
    tick := t }

/-- State reached by one recovery tick from Stopped with the given remembered
state and transform-channel position (enable channel at mid). -/
def recoveredState (last : transform_state_e) (tr : switch_e) : transform_state_e :=
  (transform_set_mode sampleConfig 0 0
    (sampleControl TRANSFORM_STOP last switch_e.SW_MID tr restServo restServo 0)).transform_state

/-- The states reached by the successive cycles of a run, one per cycle. -/
def run_states (k : Config) : List cycle_input → transform_control_t → List transform_state_e
  | [], _ => []
  | i :: is, c => (cycle_state k i c).transform_state :: run_states k is (cycle_state k i c)

/-- The four transient states: the cases of `transform_set_control` whose
body is guarded by a test on `last_transform_state` (lines 240-287). -/
def is_transient : transform_state_e → Bool
  | GROUND_TRANSFORM_FLY_PUSH_ROD => true
  | GROUND_TRANSFORM_FLY_SERVO => true
  | FLY_TRANSFORM_GROUND_SERVO => true
  | FLY_TRANSFORM_GROUND_PUSH_ROD => true
  | _ => false

/-- The driver calls inside the guarded block of each transient case of
`transform_set_control` (lines 242-247, 256-261, 270-273 and 280-283). -/
def entry_commands (k : Config) : transform_state_e → List Cmd
  | FLY_TRANSFORM_GROUND_SERVO =>
    [Cmd.left_push_rog_off, Cmd.right_push_rog_off,
     Cmd.ft_servo_app_write_pos k.LEFT_SERVO_ID k.LEFT_SERVO_GROUND_POS k.SERVO_SPEED k.SERVO_ACC,
     Cmd.ft_servo_app_write_pos k.RIGHT_SERVO_ID k.LEFT_SERVO_GROUND_POS k.SERVO_SPEED k.SERVO_ACC]
  | GROUND_TRANSFORM_FLY_SERVO =>
    [Cmd.left_push_rog_off, Cmd.right_push_rog_off,
     Cmd.ft_servo_app_write_pos k.LEFT_SERVO_ID k.LEFT_SERVO_FLY_POS k.SERVO_SPEED k.SERVO_ACC,
     Cmd.ft_servo_app_write_pos k.RIGHT_SERVO_ID k.RIGHT_SERVO_FLY_POS k.SERVO_SPEED k.SERVO_ACC]
  | FLY_TRANSFORM_GROUND_PUSH_ROD =>
    [Cmd.shorten_left_push_rog k.PUSH_ROG_ON_PWM, Cmd.shorten_right_push_rog k.PUSH_ROG_ON_PWM,
     Cmd.ft_servo_app_torque_enable k.LEFT_SERVO_ID 0,
     Cmd.ft_servo_app_torque_enable k.RIGHT_SERVO_ID 0]
  | GROUND_TRANSFORM_FLY_PUSH_ROD =>
    [Cmd.elongate_left_push_rog k.PUSH_ROG_ON_PWM, Cmd.elongate_right_push_rog k.PUSH_ROG_ON_PWM,
     Cmd.ft_servo_app_torque_enable k.LEFT_SERVO_ID 0,
     Cmd.ft_servo_app_torque_enable k.RIGHT_SERVO_ID 0]
  | _ => []

/-- A cycle input with the given switch positions, servo feedback and both
tick readings equal to `t`. -/
def sampleInputServo (en tr : switch_e) (sl sr : servo_measure_t) (t : Nat) : cycle_input :=
  { remote_point := sampleRemote en tr
    servo_left := sl
    servo_right := sr
    now_time := t
    tick := t }

/-- Elapsed ticks from `start` to `now` in the modular arithmetic of the
32-bit counter, as the specification words the wraparound-safe timeout
(`now - start` computed modulo 2^32); both arguments are counter values
below 2^32. This definition follows the specification, not the source. -/
def spec_elapsed (now start : Nat) : Nat :=
  (now + TICK_MOD - start) % TICK_MOD

/-- Push-rod drive commands: the elongate and shorten calls. -/
def is_push_rod_drive : Cmd → Bool
  | Cmd.elongate_left_push_rog _ => true
  | Cmd.elongate_right_push_rog _ => true
  | Cmd.shorten_left_push_rog _ => true
  | Cmd.shorten_right_push_rog _ => true
  | _ => false

/-- Servo position commands: the `ft_servo_app_write_pos` calls. -/
def is_servo_position : Cmd → Bool
  | Cmd.ft_servo_app_write_pos _ _ _ _ => true
  | _ => false

/-- Conversion of an integer to `int16_t`: reduction modulo 2^16 into the
range -32768 .. 32767. -/
def to_int16 (x : Int) : Int :=
  (x + 32768) % 65536 - 32768

/-- The function `int16_abs` of `Library/User/user_lib.c` (lines 290-296).
The argument is an `int16_t` value, that is an integer in -32768 .. 32767;
the negation is computed in `int` and converted back to `int16_t` by the
return. -/
def int16_abs (val : Int) : Int :=
  if val < 0 then to_int16 (-val) else val

/-! ## Theorems -/

/-- After a tick, `last_transform_state` is the state held at tick entry
(line 218). -/
theorem set_mode_last (k : Config) (now_time tick : Nat) (c : transform_control_t) :
    (transform_set_mode k now_time tick c).last_transform_state = c.transform_state := rfl

/-- After a cycle, `last_transform_state` is the state held before it. -/
theorem cycle_state_last (k : Config) (i : cycle_input) (c : transform_control_t) :
    (cycle_state k i c).last_transform_state = c.transform_state := rfl

/-- In a transient state the dispatcher issues the entry commands of the
state when the remembered state differs from it, and nothing otherwise. -/
theorem set_control_transient (k : Config) (c : transform_control_t)
    (ht : is_transient c.transform_state = true) :
    transform_set_control k c =
      if c.last_transform_state ≠ c.transform_state then entry_commands k c.transform_state
      else [] := by
  obtain ⟨st, last, sl, sr, rp, bt⟩ := c
  cases st <;> simp [is_transient] at ht <;> simp [transform_set_control, entry_commands]

/-- The entry commands of a transient state are not the empty list. -/
theorem entry_commands_ne_nil (k : Config) (S : transform_state_e)
    (hS : is_transient S = true) : entry_commands k S ≠ [] := by
  cases S <;> simp [is_transient] at hS <;> simp [entry_commands]

/-- A run that starts in a transient state and stays in it issues no
command. -/
theorem run_commands_same_state (k : Config) (S : transform_state_e)
    (hS : is_transient S = true) (is : List cycle_input) :
    ∀ c : transform_control_t, c.transform_state = S →
      (∀ s ∈ run_states k is c, s = S) →
      run_commands k is c = List.replicate is.length [] := by
  induction is with
  | nil => intro c _ _; rfl
  | cons i is ih =>
    intro c hc hall
    have h1 : (cycle_state k i c).transform_state = S :=
      hall _ (by simp [run_states])
    have h2 : ∀ s ∈ run_states k is (cycle_state k i c), s = S :=
      fun s hs => hall s (by simp [run_states, hs])
    have h3 : cycle_commands k i c = [] := by
      unfold cycle_commands
      rw [set_control_transient k _ (by rw [h1]; exact hS), cycle_state_last, h1, hc]
      simp
    simp [run_commands, h3, ih (cycle_state k i c) h1 h2, List.replicate_succ]

/-- A tick from TRANSFORM_STOP with a remembered state of TRANSFORM_STOP or
TRANSFORM_INIT ends in TRANSFORM_STOP, whatever the inputs. -/
theorem set_mode_stop_absorbing (k : Config) (now_time tick : Nat) (c : transform_control_t)
    (hst : c.transform_state = TRANSFORM_STOP)
    (hl : c.last_transform_state = TRANSFORM_STOP ∨ c.last_transform_state = TRANSFORM_INIT) :
    (transform_set_mode k now_time tick c).transform_state = TRANSFORM_STOP := by
  simp only [transform_set_mode, set_mode_body, hst]
  rcases hl with hl | hl <;>
    cases he : switch_is_down (c.remote_point k.ALL_MOVE_ENABLE_CHANNEL) <;>
    cases hu : switch_is_up (c.remote_point k.TRANSFORM_REMOTE_CHANNEL) <;>
    cases hd : switch_is_down (c.remote_point k.TRANSFORM_REMOTE_CHANNEL) <;>
    simp [recover_up, recover_down, hl, hst]

/-- A run that starts in TRANSFORM_STOP with a remembered state of
TRANSFORM_STOP or TRANSFORM_INIT never leaves TRANSFORM_STOP. -/
theorem run_stop_absorbing (k : Config) (is : List cycle_input) :
    ∀ c : transform_control_t, c.transform_state = TRANSFORM_STOP →
      (c.last_transform_state = TRANSFORM_STOP ∨ c.last_transform_state = TRANSFORM_INIT) →
      (∀ s ∈ run_states k is c, s = TRANSFORM_STOP) ∧
      (run_cycles k is c).transform_state = TRANSFORM_STOP := by
  induction is with
  | nil => intro c hst _; exact ⟨by simp [run_states], by simpa [run_cycles] using hst⟩
  | cons i is ih =>
    intro c hst hl
    have h1 : (cycle_state k i c).transform_state = TRANSFORM_STOP :=
      set_mode_stop_absorbing k i.now_time i.tick (load_input i c) hst hl
    have h2 : (cycle_state k i c).last_transform_state = TRANSFORM_STOP := by
      rw [cycle_state_last, hst]
    obtain ⟨h3, h4⟩ := ih (cycle_state k i c) h1 (Or.inl h2)
    refine ⟨?_, by simpa [run_cycles] using h4⟩
    intro s hs
    simp only [run_states, List.mem_cons] at hs
    rcases hs with hs | hs
    · rw [hs, h1]
    · exact h3 s hs

/-- C1 (kill-switch precedence): whatever the control block holds, when the
enable channel reads down, `transform_set_mode` sets the state to
TRANSFORM_STOP and `transform_set_control` on the resulting block issues
exactly: left push rod off, right push rod off, left servo torque disabled,
right servo torque disabled. -/
theorem C1_kill_switch_precedence (k : Config) (now_time tick : Nat) (c : transform_control_t)
    (hdown : switch_is_down (c.remote_point k.ALL_MOVE_ENABLE_CHANNEL) = true) :
    (transform_set_mode k now_time tick c).transform_state = TRANSFORM_STOP ∧
    transform_set_control k (transform_set_mode k now_time tick c) =
      [Cmd.left_push_rog_off, Cmd.right_push_rog_off,
       Cmd.ft_servo_app_torque_enable k.LEFT_SERVO_ID 0,
       Cmd.ft_servo_app_torque_enable k.RIGHT_SERVO_ID 0] := by
  simp [transform_set_mode, set_mode_body, transform_set_control, hdown]

/-- Witness for C1: a flying robot in mid-transition inputs, enable channel
down. -/
theorem C1_kill_switch_precedence_witness :
    (transform_set_mode sampleConfig 10 10
      (sampleControl GROUND_TRANSFORM_FLY_SERVO GROUND_STATE switch_e.SW_DOWN switch_e.SW_UP
        restServo restServo 3)).transform_state = TRANSFORM_STOP ∧
    transform_set_control sampleConfig (transform_set_mode sampleConfig 10 10
      (sampleControl GROUND_TRANSFORM_FLY_SERVO GROUND_STATE switch_e.SW_DOWN switch_e.SW_UP
        restServo restServo 3)) =
      [Cmd.left_push_rog_off, Cmd.right_push_rog_off,
       Cmd.ft_servo_app_torque_enable sampleConfig.LEFT_SERVO_ID 0,
       Cmd.ft_servo_app_torque_enable sampleConfig.RIGHT_SERVO_ID 0] :=
  C1_kill_switch_precedence sampleConfig 10 10
    (sampleControl GROUND_TRANSFORM_FLY_SERVO GROUND_STATE switch_e.SW_DOWN switch_e.SW_UP
      restServo restServo 3) (by decide)

/-- C2, counterexample: five cells of the claimed recovery table differ from
the code. Remembered GroundToFly_PushRod with channel down gives
FlyToGround_PushRod (claimed Grounded); remembered GroundToFly_Servo gives
GroundToFly_Servo on up (claimed GroundToFly_PushRod) and FlyToGround_Servo
on down (claimed Grounded); remembered FlyToGround_Servo with channel down
gives FlyToGround_Servo (claimed FlyToGround_PushRod); remembered
FlyToGround_PushRod with channel up gives GroundToFly_PushRod (claimed
GroundToFly_Servo). -/
theorem C2_recovery_table_counterexample :
    (recoveredState GROUND_TRANSFORM_FLY_PUSH_ROD switch_e.SW_DOWN = FLY_TRANSFORM_GROUND_PUSH_ROD ∧
      recoveredState GROUND_TRANSFORM_FLY_PUSH_ROD switch_e.SW_DOWN ≠ GROUND_STATE) ∧
    (recoveredState GROUND_TRANSFORM_FLY_SERVO switch_e.SW_UP = GROUND_TRANSFORM_FLY_SERVO ∧
      recoveredState GROUND_TRANSFORM_FLY_SERVO switch_e.SW_UP ≠ GROUND_TRANSFORM_FLY_PUSH_ROD) ∧
    (recoveredState GROUND_TRANSFORM_FLY_SERVO switch_e.SW_DOWN = FLY_TRANSFORM_GROUND_SERVO ∧
      recoveredState GROUND_TRANSFORM_FLY_SERVO switch_e.SW_DOWN ≠ GROUND_STATE) ∧
    (recoveredState FLY_TRANSFORM_GROUND_SERVO switch_e.SW_DOWN = FLY_TRANSFORM_GROUND_SERVO ∧
      recoveredState FLY_TRANSFORM_GROUND_SERVO switch_e.SW_DOWN ≠ FLY_TRANSFORM_GROUND_PUSH_ROD) ∧
    (recoveredState FLY_TRANSFORM_GROUND_PUSH_ROD switch_e.SW_UP = GROUND_TRANSFORM_FLY_PUSH_ROD ∧
      recoveredState FLY_TRANSFORM_GROUND_PUSH_ROD switch_e.SW_UP ≠ GROUND_TRANSFORM_FLY_SERVO) := by
  decide

/-- C2, amended (recovery table of the code): with state TRANSFORM_STOP and
the enable channel not down, one tick yields: on transform channel up,
Flying for remembered Flying, GroundToFly_PushRod for remembered Grounded,
GroundToFly_PushRod or FlyToGround_PushRod, and GroundToFly_Servo for
remembered GroundToFly_Servo or FlyToGround_Servo; on transform channel down,
Grounded for remembered Grounded, FlyToGround_Servo for remembered Flying,
GroundToFly_Servo or FlyToGround_Servo, and FlyToGround_PushRod for
remembered GroundToFly_PushRod or FlyToGround_PushRod. -/
theorem C2_recovery_table_amended (k : Config) (now_time tick : Nat) (c : transform_control_t)
    (hst : c.transform_state = TRANSFORM_STOP)
    (hen : switch_is_down (c.remote_point k.ALL_MOVE_ENABLE_CHANNEL) = false) :
    (switch_is_up (c.remote_point k.TRANSFORM_REMOTE_CHANNEL) = true →
      (c.last_transform_state = FLY_STATE →
        (transform_set_mode k now_time tick c).transform_state = FLY_STATE) ∧
      (c.last_transform_state = GROUND_STATE ∨
        c.last_transform_state = GROUND_TRANSFORM_FLY_PUSH_ROD ∨
        c.last_transform_state = FLY_TRANSFORM_GROUND_PUSH_ROD →
        (transform_set_mode k now_time tick c).transform_state =
          GROUND_TRANSFORM_FLY_PUSH_ROD) ∧
      (c.last_transform_state = GROUND_TRANSFORM_FLY_SERVO ∨
        c.last_transform_state = FLY_TRANSFORM_GROUND_SERVO →
        (transform_set_mode k now_time tick c).transform_state =
          GROUND_TRANSFORM_FLY_SERVO)) ∧
    (switch_is_down (c.remote_point k.TRANSFORM_REMOTE_CHANNEL) = true →
      (c.last_transform_state = GROUND_STATE →
        (transform_set_mode k now_time tick c).transform_state = GROUND_STATE) ∧
      (c.last_transform_state = FLY_STATE ∨
        c.last_transform_state = GROUND_TRANSFORM_FLY_SERVO ∨
        c.last_transform_state = FLY_TRANSFORM_GROUND_SERVO →
        (transform_set_mode k now_time tick c).transform_state =
          FLY_TRANSFORM_GROUND_SERVO) ∧
      (c.last_transform_state = GROUND_TRANSFORM_FLY_PUSH_ROD ∨
        c.last_transform_state = FLY_TRANSFORM_GROUND_PUSH_ROD →
        (transform_set_mode k now_time tick c).transform_state =
          FLY_TRANSFORM_GROUND_PUSH_ROD)) := by
  have hup_down : switch_is_down (c.remote_point k.TRANSFORM_REMOTE_CHANNEL) = true →
      switch_is_up (c.remote_point k.TRANSFORM_REMOTE_CHANNEL) = false := by
    cases c.remote_point k.TRANSFORM_REMOTE_CHANNEL <;> simp [switch_is_up, switch_is_down]
  refine ⟨fun hup => ⟨?_, ?_, ?_⟩, fun hdn => ⟨?_, ?_, ?_⟩⟩
  · intro hl
    simp [transform_set_mode, set_mode_body, recover_up, hst, hen, hup, hl]
  · rintro (hl | hl | hl) <;>
      simp [transform_set_mode, set_mode_body, recover_up, hst, hen, hup, hl]
  · rintro (hl | hl) <;>
      simp [transform_set_mode, set_mode_body, recover_up, hst, hen, hup, hl]
  · intro hl
    simp [transform_set_mode, set_mode_body, recover_down, hst, hen, hdn, hup_down hdn, hl]
  · rintro (hl | hl | hl) <;>
      simp [transform_set_mode, set_mode_body, recover_down, hst, hen, hdn, hup_down hdn, hl]
  · rintro (hl | hl) <;>
      simp [transform_set_mode, set_mode_body, recover_down, hst, hen, hdn, hup_down hdn, hl]

/-- Witness for the amended C2: a stopped block that remembers
GroundToFly_Servo, enable channel at mid, transform channel up. -/
theorem C2_recovery_table_amended_witness :
    (transform_set_mode sampleConfig 4 4
      (sampleControl TRANSFORM_STOP GROUND_TRANSFORM_FLY_SERVO switch_e.SW_MID switch_e.SW_UP
        restServo restServo 0)).transform_state = GROUND_TRANSFORM_FLY_SERVO :=
  ((C2_recovery_table_amended sampleConfig 4 4
    (sampleControl TRANSFORM_STOP GROUND_TRANSFORM_FLY_SERVO switch_e.SW_MID switch_e.SW_UP
      restServo restServo 0) rfl (by decide)).1 (by decide)).2.2 (Or.inl rfl)

/-- C3, evaluation at the failing input: a flying robot (state and remembered
state Flying) sees the enable channel down on two consecutive cycles. After
the first cycle the remembered state is Flying; after the second it is
TRANSFORM_STOP, the pre-stop state is lost, and a following cycle with the
enable channel up and the transform channel up stays in TRANSFORM_STOP
instead of resuming Flying. -/
theorem C3_pre_stop_state_lost_after_two_ticks :
    (run_cycles sampleConfig [sampleInput switch_e.SW_DOWN switch_e.SW_UP 1]
      (sampleControl FLY_STATE FLY_STATE switch_e.SW_MID switch_e.SW_UP
        restServo restServo 0)).last_transform_state = FLY_STATE ∧
    (run_cycles sampleConfig
      [sampleInput switch_e.SW_DOWN switch_e.SW_UP 1, sampleInput switch_e.SW_DOWN switch_e.SW_UP 2]
      (sampleControl FLY_STATE FLY_STATE switch_e.SW_MID switch_e.SW_UP
        restServo restServo 0)).last_transform_state = TRANSFORM_STOP ∧
    (run_cycles sampleConfig
      [sampleInput switch_e.SW_DOWN switch_e.SW_UP 1, sampleInput switch_e.SW_DOWN switch_e.SW_UP 2,
       sampleInput switch_e.SW_UP switch_e.SW_UP 3]
      (sampleControl FLY_STATE FLY_STATE switch_e.SW_MID switch_e.SW_UP
        restServo restServo 0)).transform_state = TRANSFORM_STOP := by
  decide

/-- C4, counterexample: from TRANSFORM_INIT the tick does not yield
GroundToFly_Servo. With the enable channel at mid it yields FlyToGround_Servo;
with the enable channel down it yields TRANSFORM_STOP. -/
theorem C4_boot_sequence_counterexample :
    ((transform_set_mode sampleConfig 0 0
      (sampleControl TRANSFORM_INIT TRANSFORM_INIT switch_e.SW_MID switch_e.SW_MID
        restServo restServo 0)).transform_state = FLY_TRANSFORM_GROUND_SERVO ∧
     (transform_set_mode sampleConfig 0 0
      (sampleControl TRANSFORM_INIT TRANSFORM_INIT switch_e.SW_MID switch_e.SW_MID
        restServo restServo 0)).transform_state ≠ GROUND_TRANSFORM_FLY_SERVO) ∧
    ((transform_set_mode sampleConfig 0 0
      (sampleControl TRANSFORM_INIT TRANSFORM_INIT switch_e.SW_DOWN switch_e.SW_MID
        restServo restServo 0)).transform_state = TRANSFORM_STOP ∧
     (transform_set_mode sampleConfig 0 0
      (sampleControl TRANSFORM_INIT TRANSFORM_INIT switch_e.SW_DOWN switch_e.SW_MID
        restServo restServo 0)).transform_state ≠ GROUND_TRANSFORM_FLY_SERVO) := by
  decide

/-- C4, amended (boot sequence of the code): with state TRANSFORM_INIT, for
every transform channel, servo feedback and tick time, one tick yields
FlyToGround_Servo when the enable channel is not down, and TRANSFORM_STOP
when the enable channel is down. -/
theorem C4_boot_sequence_amended (k : Config) (now_time tick : Nat) (c : transform_control_t)
    (hst : c.transform_state = TRANSFORM_INIT) :
    (switch_is_down (c.remote_point k.ALL_MOVE_ENABLE_CHANNEL) = false →
      (transform_set_mode k now_time tick c).transform_state = FLY_TRANSFORM_GROUND_SERVO) ∧
    (switch_is_down (c.remote_point k.ALL_MOVE_ENABLE_CHANNEL) = true →
      (transform_set_mode k now_time tick c).transform_state = TRANSFORM_STOP) := by
  constructor <;> intro hen <;> simp [transform_set_mode, set_mode_body, hst, hen]

/-- Witness for the amended C4: the block built by `transform_init`, enable
channel up, transform channel down. -/
theorem C4_boot_sequence_amended_witness :
    (transform_set_mode sampleConfig 9 9
      (sampleControl TRANSFORM_INIT TRANSFORM_INIT switch_e.SW_UP switch_e.SW_DOWN
        restServo restServo 0)).transform_state = FLY_TRANSFORM_GROUND_SERVO :=
  (C4_boot_sequence_amended sampleConfig 9 9
    (sampleControl TRANSFORM_INIT TRANSFORM_INIT switch_e.SW_UP switch_e.SW_DOWN
      restServo restServo 0) rfl).1 (by decide)

/-- C5, evaluation at the failing input (left ground target 300, right ground
target 400): on entry to FlyToGround_Servo the dispatcher sends the right
servo to the left ground target 300, not to its own target 400. With the
right servo at rest at 300, where it was sent, `transform_set_mode` does not
leave FlyToGround_Servo; it leaves it only with the right servo at 400. On
entry to GroundToFly_Servo each servo is sent to its own fly target. -/
theorem C5_right_servo_sent_to_left_ground_target :
    transform_set_control sampleConfig
      (sampleControl FLY_TRANSFORM_GROUND_SERVO FLY_STATE switch_e.SW_MID switch_e.SW_DOWN
        restServo restServo 0) =
      [Cmd.left_push_rog_off, Cmd.right_push_rog_off,
       Cmd.ft_servo_app_write_pos 1 300 1000 50,
       Cmd.ft_servo_app_write_pos 2 300 1000 50] ∧
    sampleConfig.RIGHT_SERVO_GROUND_POS = 400 ∧
    (transform_set_mode sampleConfig 1 1
      (sampleControl FLY_TRANSFORM_GROUND_SERVO FLY_TRANSFORM_GROUND_SERVO switch_e.SW_MID
        switch_e.SW_DOWN { move := 0, pos := 300 } { move := 0, pos := 300 } 0)).transform_state =
      FLY_TRANSFORM_GROUND_SERVO ∧
    (transform_set_mode sampleConfig 1 1
      (sampleControl FLY_TRANSFORM_GROUND_SERVO FLY_TRANSFORM_GROUND_SERVO switch_e.SW_MID
        switch_e.SW_DOWN { move := 0, pos := 300 } { move := 0, pos := 400 } 0)).transform_state =
      FLY_TRANSFORM_GROUND_PUSH_ROD ∧
    transform_set_control sampleConfig
      (sampleControl GROUND_TRANSFORM_FLY_SERVO GROUND_TRANSFORM_FLY_PUSH_ROD switch_e.SW_MID
        switch_e.SW_UP restServo restServo 0) =
      [Cmd.left_push_rog_off, Cmd.right_push_rog_off,
       Cmd.ft_servo_app_write_pos 1 100 1000 50,
       Cmd.ft_servo_app_write_pos 2 200 1000 50] := by
  decide

/-- C6, counterexample (durations 5 and 7, timer started at 10): at exact
equality of the elapsed time and the duration the tick does not advance.
In GroundToFly_PushRod at time 15 the state stays GroundToFly_PushRod; in
FlyToGround_PushRod at time 17 the state stays FlyToGround_PushRod. -/
theorem C6_push_rod_timing_counterexample :
    (15 - 10 ≥ sampleConfig.PUSH_ROG_ELONGATE_NEED_TIME ∧
      (transform_set_mode sampleConfig 15 15
        (sampleControl GROUND_TRANSFORM_FLY_PUSH_ROD GROUND_TRANSFORM_FLY_PUSH_ROD
          switch_e.SW_MID switch_e.SW_UP restServo restServo 10)).transform_state =
        GROUND_TRANSFORM_FLY_PUSH_ROD ∧
      (transform_set_mode sampleConfig 15 15
        (sampleControl GROUND_TRANSFORM_FLY_PUSH_ROD GROUND_TRANSFORM_FLY_PUSH_ROD
          switch_e.SW_MID switch_e.SW_UP restServo restServo 10)).transform_state ≠
        GROUND_TRANSFORM_FLY_SERVO) ∧
    (17 - 10 ≥ sampleConfig.PUSH_ROG_SHORTEN_NEED_TIME ∧
      (transform_set_mode sampleConfig 17 17
        (sampleControl FLY_TRANSFORM_GROUND_PUSH_ROD FLY_TRANSFORM_GROUND_PUSH_ROD
          switch_e.SW_MID switch_e.SW_DOWN restServo restServo 10)).transform_state =
        FLY_TRANSFORM_GROUND_PUSH_ROD ∧
      (transform_set_mode sampleConfig 17 17
        (sampleControl FLY_TRANSFORM_GROUND_PUSH_ROD FLY_TRANSFORM_GROUND_PUSH_ROD
          switch_e.SW_MID switch_e.SW_DOWN restServo restServo 10)).transform_state ≠
        GROUND_STATE) := by
  decide

/-- C6, amended (push-rod timing of the code): with the enable channel not
down and no counter wrap (start at most now, start plus duration below 2^32),
in GroundToFly_PushRod the tick yields GroundToFly_Servo when
now - start > PUSH_ROG_ELONGATE_NEED_TIME (strictly) and leaves the state
unchanged otherwise; in FlyToGround_PushRod the tick yields Grounded when
now - start > PUSH_ROG_SHORTEN_NEED_TIME (strictly) and leaves the state
unchanged otherwise. -/
theorem C6_push_rod_timing_amended (k : Config) (now_time tick : Nat) (c : transform_control_t)
    (hen : switch_is_down (c.remote_point k.ALL_MOVE_ENABLE_CHANNEL) = false)
    (hle : c.push_rog_move_begin_time ≤ now_time) :
    (c.transform_state = GROUND_TRANSFORM_FLY_PUSH_ROD →
      c.push_rog_move_begin_time + k.PUSH_ROG_ELONGATE_NEED_TIME < TICK_MOD →
      (transform_set_mode k now_time tick c).transform_state =
        if now_time - c.push_rog_move_begin_time > k.PUSH_ROG_ELONGATE_NEED_TIME
        then GROUND_TRANSFORM_FLY_SERVO else GROUND_TRANSFORM_FLY_PUSH_ROD) ∧
    (c.transform_state = FLY_TRANSFORM_GROUND_PUSH_ROD →
      c.push_rog_move_begin_time + k.PUSH_ROG_SHORTEN_NEED_TIME < TICK_MOD →
      (transform_set_mode k now_time tick c).transform_state =
        if now_time - c.push_rog_move_begin_time > k.PUSH_ROG_SHORTEN_NEED_TIME
        then GROUND_STATE else FLY_TRANSFORM_GROUND_PUSH_ROD) := by
  constructor
  · intro hst hrep
    have hiff : now_time > c.push_rog_move_begin_time + k.PUSH_ROG_ELONGATE_NEED_TIME ↔
        now_time - c.push_rog_move_begin_time > k.PUSH_ROG_ELONGATE_NEED_TIME := by omega
    by_cases hgt : now_time - c.push_rog_move_begin_time > k.PUSH_ROG_ELONGATE_NEED_TIME
    · have h1 := hiff.mpr hgt
      simp [transform_set_mode, set_mode_body, hst, hen, Nat.mod_eq_of_lt hrep, h1, hgt]
    · have h1 : ¬ now_time > c.push_rog_move_begin_time + k.PUSH_ROG_ELONGATE_NEED_TIME :=
        fun h => hgt (hiff.mp h)
      simp [transform_set_mode, set_mode_body, hst, hen, Nat.mod_eq_of_lt hrep, h1, hgt]
  · intro hst hrep
    have hiff : now_time > c.push_rog_move_begin_time + k.PUSH_ROG_SHORTEN_NEED_TIME ↔
        now_time - c.push_rog_move_begin_time > k.PUSH_ROG_SHORTEN_NEED_TIME := by omega
    by_cases hgt : now_time - c.push_rog_move_begin_time > k.PUSH_ROG_SHORTEN_NEED_TIME
    · have h1 := hiff.mpr hgt
      simp [transform_set_mode, set_mode_body, hst, hen, Nat.mod_eq_of_lt hrep, h1, hgt]
    · have h1 : ¬ now_time > c.push_rog_move_begin_time + k.PUSH_ROG_SHORTEN_NEED_TIME :=
        fun h => hgt (hiff.mp h)
      simp [transform_set_mode, set_mode_body, hst, hen, Nat.mod_eq_of_lt hrep, h1, hgt]

/-- Witness for the amended C6: elongation started at tick 10, duration 5,
now 16: the tick yields GroundToFly_Servo. -/
theorem C6_push_rod_timing_amended_witness :
    (transform_set_mode sampleConfig 16 16
      (sampleControl GROUND_TRANSFORM_FLY_PUSH_ROD GROUND_TRANSFORM_FLY_PUSH_ROD
        switch_e.SW_MID switch_e.SW_UP restServo restServo 10)).transform_state =
      GROUND_TRANSFORM_FLY_SERVO :=
  (C6_push_rod_timing_amended sampleConfig 16 16
    (sampleControl GROUND_TRANSFORM_FLY_PUSH_ROD GROUND_TRANSFORM_FLY_PUSH_ROD
      switch_e.SW_MID switch_e.SW_UP restServo restServo 10) (by decide) (by decide)).1
    rfl (by decide)

/-- C7 (servo-completion exactness): with the enable channel not down, from
GroundToFly_Servo the tick yields Flying if and only if both servos report
move = 0, the left position equals the left fly target and the right
position equals the right fly target; otherwise the state stays
GroundToFly_Servo, in particular when a servo is at rest one below its
target. From FlyToGround_Servo the tick yields FlyToGround_PushRod if and
only if both servos report move = 0 at their own ground targets; otherwise
the state is unchanged. -/
theorem C7_servo_completion_exactness (k : Config) (now_time tick : Nat)
    (c : transform_control_t)
    (hen : switch_is_down (c.remote_point k.ALL_MOVE_ENABLE_CHANNEL) = false) :
    (c.transform_state = GROUND_TRANSFORM_FLY_SERVO →
      ((transform_set_mode k now_time tick c).transform_state = FLY_STATE ↔
        (c.servo_left.move = 0 ∧ c.servo_left.pos = k.LEFT_SERVO_FLY_POS ∧
         c.servo_right.move = 0 ∧ c.servo_right.pos = k.RIGHT_SERVO_FLY_POS)) ∧
      (¬ (c.servo_left.move = 0 ∧ c.servo_left.pos = k.LEFT_SERVO_FLY_POS ∧
          c.servo_right.move = 0 ∧ c.servo_right.pos = k.RIGHT_SERVO_FLY_POS) →
        (transform_set_mode k now_time tick c).transform_state = GROUND_TRANSFORM_FLY_SERVO) ∧
      (c.servo_left.pos = k.LEFT_SERVO_FLY_POS - 1 ∨
        c.servo_right.pos = k.RIGHT_SERVO_FLY_POS - 1 →
        (transform_set_mode k now_time tick c).transform_state = GROUND_TRANSFORM_FLY_SERVO)) ∧
    (c.transform_state = FLY_TRANSFORM_GROUND_SERVO →
      ((transform_set_mode k now_time tick c).transform_state = FLY_TRANSFORM_GROUND_PUSH_ROD ↔
        (c.servo_left.move = 0 ∧ c.servo_left.pos = k.LEFT_SERVO_GROUND_POS ∧
         c.servo_right.move = 0 ∧ c.servo_right.pos = k.RIGHT_SERVO_GROUND_POS)) ∧
      (¬ (c.servo_left.move = 0 ∧ c.servo_left.pos = k.LEFT_SERVO_GROUND_POS ∧
          c.servo_right.move = 0 ∧ c.servo_right.pos = k.RIGHT_SERVO_GROUND_POS) →
        (transform_set_mode k now_time tick c).transform_state = FLY_TRANSFORM_GROUND_SERVO)) := by
  constructor
  · intro hst
    have hstay : ¬ (c.servo_left.move = 0 ∧ c.servo_left.pos = k.LEFT_SERVO_FLY_POS ∧
          c.servo_right.move = 0 ∧ c.servo_right.pos = k.RIGHT_SERVO_FLY_POS) →
        (transform_set_mode k now_time tick c).transform_state = GROUND_TRANSFORM_FLY_SERVO := by
      intro hn
      simp only [transform_set_mode, set_mode_body, hst, hen]
      simp [hn, hst]
    refine ⟨⟨fun h => ?_, fun h => ?_⟩, hstay, fun h => hstay ?_⟩
    · by_contra hn
      rw [hstay hn] at h
      exact absurd h (by decide)
    · simp only [transform_set_mode, set_mode_body, hst, hen]
      simp [h]
    · rintro ⟨-, hl, -, hr⟩
      rcases h with h | h
      · rw [hl] at h; omega
      · rw [hr] at h; omega
  · intro hst
    have hstay : ¬ (c.servo_left.move = 0 ∧ c.servo_left.pos = k.LEFT_SERVO_GROUND_POS ∧
          c.servo_right.move = 0 ∧ c.servo_right.pos = k.RIGHT_SERVO_GROUND_POS) →
        (transform_set_mode k now_time tick c).transform_state = FLY_TRANSFORM_GROUND_SERVO := by
      intro hn
      simp only [transform_set_mode, set_mode_body, hst, hen]
      simp [hn, hst]
    refine ⟨⟨fun h => ?_, fun h => ?_⟩, hstay⟩
    · by_contra hn
      rw [hstay hn] at h
      exact absurd h (by decide)
    · simp only [transform_set_mode, set_mode_body, hst, hen]
      simp [h]

/-- Witness for C7: in GroundToFly_Servo with both servos at rest at their
fly targets (100 and 200) the tick yields Flying. -/
theorem C7_servo_completion_exactness_witness :
    (transform_set_mode sampleConfig 6 6
      (sampleControl GROUND_TRANSFORM_FLY_SERVO GROUND_TRANSFORM_FLY_SERVO switch_e.SW_UP
        switch_e.SW_UP { move := 0, pos := 100 } { move := 0, pos := 200 } 0)).transform_state =
      FLY_STATE :=
  ((C7_servo_completion_exactness sampleConfig 6 6
    (sampleControl GROUND_TRANSFORM_FLY_SERVO GROUND_TRANSFORM_FLY_SERVO switch_e.SW_UP
      switch_e.SW_UP { move := 0, pos := 100 } { move := 0, pos := 200 } 0)
    (by decide)).1 rfl).1.mpr (by decide)

/-- C8 (stable-state triggers): with the enable channel not down, from Flying
a transform channel reading down yields FlyToGround_Servo and any other
reading leaves the state Flying; from Grounded a transform channel reading
up yields GroundToFly_PushRod with `push_rog_move_begin_time` set to the
tick count read at that moment, and any other reading leaves the state
Grounded and `push_rog_move_begin_time` unchanged. -/
theorem C8_stable_state_triggers (k : Config) (now_time tick : Nat) (c : transform_control_t)
    (hen : switch_is_down (c.remote_point k.ALL_MOVE_ENABLE_CHANNEL) = false) :
    (c.transform_state = FLY_STATE →
      (switch_is_down (c.remote_point k.TRANSFORM_REMOTE_CHANNEL) = true →
        (transform_set_mode k now_time tick c).transform_state = FLY_TRANSFORM_GROUND_SERVO) ∧
      (switch_is_down (c.remote_point k.TRANSFORM_REMOTE_CHANNEL) = false →
        (transform_set_mode k now_time tick c).transform_state = FLY_STATE)) ∧
    (c.transform_state = GROUND_STATE →
      (switch_is_up (c.remote_point k.TRANSFORM_REMOTE_CHANNEL) = true →
        (transform_set_mode k now_time tick c).transform_state = GROUND_TRANSFORM_FLY_PUSH_ROD ∧
        (transform_set_mode k now_time tick c).push_rog_move_begin_time = tick) ∧
      (switch_is_up (c.remote_point k.TRANSFORM_REMOTE_CHANNEL) = false →
        (transform_set_mode k now_time tick c).transform_state = GROUND_STATE ∧
        (transform_set_mode k now_time tick c).push_rog_move_begin_time =
          c.push_rog_move_begin_time)) := by
  refine ⟨fun hst => ⟨fun h => ?_, fun h => ?_⟩, fun hst => ⟨fun h => ?_, fun h => ?_⟩⟩ <;>
    simp [transform_set_mode, set_mode_body, hst, hen, h]

/-- Witness for C8: grounded robot, enable channel up, transform channel up,
tick count 42: the tick yields GroundToFly_PushRod and stores 42. -/
theorem C8_stable_state_triggers_witness :
    (transform_set_mode sampleConfig 42 42
      (sampleControl GROUND_STATE GROUND_STATE switch_e.SW_UP switch_e.SW_UP
        restServo restServo 7)).transform_state = GROUND_TRANSFORM_FLY_PUSH_ROD ∧
    (transform_set_mode sampleConfig 42 42
      (sampleControl GROUND_STATE GROUND_STATE switch_e.SW_UP switch_e.SW_UP
        restServo restServo 7)).push_rog_move_begin_time = 42 :=
  ((C8_stable_state_triggers sampleConfig 42 42
    (sampleControl GROUND_STATE GROUND_STATE switch_e.SW_UP switch_e.SW_UP
      restServo restServo 7) (by decide)).2 rfl).1 (by decide)

/-- C9 (command idempotence over a run): let S be a transient state. In
every run of consecutive cycles in which the state after each cycle is S
and the state before the first cycle was different, the entry commands of S
are issued on the first cycle and no command is issued on any later cycle.
The entry commands are not empty. After any tick whose resulting state is
S, the dispatcher issues the entry commands of S if and only if S differs
from the state held at tick entry, and issues nothing when they are equal. -/
theorem C9_command_idempotence (k : Config) (S : transform_state_e)
    (hS : is_transient S = true) :
    (∀ (c : transform_control_t) (i : cycle_input) (is : List cycle_input),
      c.transform_state ≠ S →
      (∀ s ∈ run_states k (i :: is) c, s = S) →
      run_commands k (i :: is) c = entry_commands k S :: List.replicate is.length []) ∧
    entry_commands k S ≠ [] ∧
    (∀ (c : transform_control_t) (now_time tick : Nat),
      (transform_set_mode k now_time tick c).transform_state = S →
      (transform_set_control k (transform_set_mode k now_time tick c) = entry_commands k S ↔
        S ≠ c.transform_state) ∧
      (S = c.transform_state →
        transform_set_control k (transform_set_mode k now_time tick c) = [])) := by
  refine ⟨?_, entry_commands_ne_nil k S hS, ?_⟩
  · intro c i is hc hall
    have h1 : (cycle_state k i c).transform_state = S :=
      hall _ (by simp [run_states])
    have h2 : ∀ s ∈ run_states k is (cycle_state k i c), s = S :=
      fun s hs => hall s (by simp [run_states, hs])
    have h3 : cycle_commands k i c = entry_commands k S := by
      unfold cycle_commands
      rw [set_control_transient k _ (by rw [h1]; exact hS), cycle_state_last, h1]
      simp [hc]
    simp [run_commands, h3, run_commands_same_state k S hS is (cycle_state k i c) h1 h2]
  · intro c now_time tick h1
    rw [set_control_transient k _ (by rw [h1]; exact hS), set_mode_last, h1]
    have hne := entry_commands_ne_nil k S hS
    constructor
    · constructor
      · intro h heq
        rw [if_neg (by simpa using heq.symm)] at h
        exact hne h.symm
      · intro h
        rw [if_pos (fun e => h e.symm)]
    · intro heq
      rw [if_neg (by simpa using heq.symm)]

/-- Witness for C9: push-rod elongation started at tick 0 (duration 5); three
cycles at ticks 10, 11 and 12 with the servos not at their fly targets all
end in GroundToFly_Servo. The move commands are issued on the first cycle
only. -/
theorem C9_command_idempotence_witness :
    run_commands sampleConfig
      [sampleInput switch_e.SW_UP switch_e.SW_UP 10, sampleInput switch_e.SW_UP switch_e.SW_UP 11,
       sampleInput switch_e.SW_UP switch_e.SW_UP 12]
      (sampleControl GROUND_TRANSFORM_FLY_PUSH_ROD GROUND_TRANSFORM_FLY_PUSH_ROD
        switch_e.SW_UP switch_e.SW_UP restServo restServo 0) =
      [entry_commands sampleConfig GROUND_TRANSFORM_FLY_SERVO, [], []] :=
  (C9_command_idempotence sampleConfig GROUND_TRANSFORM_FLY_SERVO rfl).1
    (sampleControl GROUND_TRANSFORM_FLY_PUSH_ROD GROUND_TRANSFORM_FLY_PUSH_ROD
      switch_e.SW_UP switch_e.SW_UP restServo restServo 0)
    (sampleInput switch_e.SW_UP switch_e.SW_UP 10)
    [sampleInput switch_e.SW_UP switch_e.SW_UP 11, sampleInput switch_e.SW_UP switch_e.SW_UP 12]
    (by decide) (by decide)

/-- C10 (static group): for every state among Grounded, Flying, Stopped and
Init and every remembered state, also one equal to the state,
`transform_set_control` issues exactly: left push rod off, right push rod
off, left servo torque disabled, right servo torque disabled. The list does
not mention the remembered state, so it is issued on every tick. -/
theorem C10_static_group_commands (k : Config) (c : transform_control_t)
    (hst : c.transform_state = GROUND_STATE ∨ c.transform_state = FLY_STATE ∨
      c.transform_state = TRANSFORM_STOP ∨ c.transform_state = TRANSFORM_INIT) :
    transform_set_control k c =
      [Cmd.left_push_rog_off, Cmd.right_push_rog_off,
       Cmd.ft_servo_app_torque_enable k.LEFT_SERVO_ID 0,
       Cmd.ft_servo_app_torque_enable k.RIGHT_SERVO_ID 0] := by
  rcases hst with h | h | h | h <;> simp [transform_set_control, h]

/-- Witness for C10: Grounded with remembered state Grounded. -/
theorem C10_static_group_commands_witness :
    transform_set_control sampleConfig
      (sampleControl GROUND_STATE GROUND_STATE switch_e.SW_UP switch_e.SW_DOWN
        restServo restServo 0) =
      [Cmd.left_push_rog_off, Cmd.right_push_rog_off,
       Cmd.ft_servo_app_torque_enable sampleConfig.LEFT_SERVO_ID 0,
       Cmd.ft_servo_app_torque_enable sampleConfig.RIGHT_SERVO_ID 0] :=
  C10_static_group_commands sampleConfig
    (sampleControl GROUND_STATE GROUND_STATE switch_e.SW_UP switch_e.SW_DOWN
      restServo restServo 0) (Or.inl rfl)

/-- C11, counterexample (elongation duration 5): a grounded robot sees the
transform channel up at tick 10 and enters GroundToFly_PushRod with the timer
at 10; the following cycle at tick 15 = 10 + 5 leaves the state
GroundToFly_PushRod, it does not yield GroundToFly_Servo. -/
theorem C11_ground_to_fly_scenario_counterexample :
    (run_cycles sampleConfig [sampleInput switch_e.SW_UP switch_e.SW_UP 10]
      (sampleControl GROUND_STATE GROUND_STATE switch_e.SW_UP switch_e.SW_MID
        restServo restServo 0)).transform_state = GROUND_TRANSFORM_FLY_PUSH_ROD ∧
    (run_cycles sampleConfig [sampleInput switch_e.SW_UP switch_e.SW_UP 10]
      (sampleControl GROUND_STATE GROUND_STATE switch_e.SW_UP switch_e.SW_MID
        restServo restServo 0)).push_rog_move_begin_time = 10 ∧
    10 + sampleConfig.PUSH_ROG_ELONGATE_NEED_TIME = 15 ∧
    (run_cycles sampleConfig
      [sampleInput switch_e.SW_UP switch_e.SW_UP 10, sampleInput switch_e.SW_UP switch_e.SW_UP 15]
      (sampleControl GROUND_STATE GROUND_STATE switch_e.SW_UP switch_e.SW_MID
        restServo restServo 0)).transform_state = GROUND_TRANSFORM_FLY_PUSH_ROD ∧
    (run_cycles sampleConfig
      [sampleInput switch_e.SW_UP switch_e.SW_UP 10, sampleInput switch_e.SW_UP switch_e.SW_UP 15]
      (sampleControl GROUND_STATE GROUND_STATE switch_e.SW_UP switch_e.SW_MID
        restServo restServo 0)).transform_state ≠ GROUND_TRANSFORM_FLY_SERVO := by
  decide

/-- C11, amended (end-to-end ground-to-fly scenario of the code): with the
enable channel not down throughout, starting from Grounded with the
transform channel up and the tick count t0, one cycle yields
GroundToFly_PushRod with `push_rog_move_begin_time` = t0; a following cycle
at a time later than t0 + PUSH_ROG_ELONGATE_NEED_TIME (the sum below 2^32)
yields GroundToFly_Servo; and a following cycle in which both servos report
move = 0 at their fly targets yields Flying. -/
theorem C11_ground_to_fly_scenario_amended (k : Config) (c0 : transform_control_t)
    (i1 i2 i3 : cycle_input) (t0 : Nat)
    (h0 : c0.transform_state = GROUND_STATE)
    (he1 : switch_is_down (i1.remote_point k.ALL_MOVE_ENABLE_CHANNEL) = false)
    (hu1 : switch_is_up (i1.remote_point k.TRANSFORM_REMOTE_CHANNEL) = true)
    (ht1 : i1.tick = t0)
    (he2 : switch_is_down (i2.remote_point k.ALL_MOVE_ENABLE_CHANNEL) = false)
    (hrep : t0 + k.PUSH_ROG_ELONGATE_NEED_TIME < TICK_MOD)
    (ht2 : i2.now_time > t0 + k.PUSH_ROG_ELONGATE_NEED_TIME)
    (he3 : switch_is_down (i3.remote_point k.ALL_MOVE_ENABLE_CHANNEL) = false)
    (hs3 : i3.servo_left.move = 0 ∧ i3.servo_left.pos = k.LEFT_SERVO_FLY_POS ∧
      i3.servo_right.move = 0 ∧ i3.servo_right.pos = k.RIGHT_SERVO_FLY_POS) :
    (cycle_state k i1 c0).transform_state = GROUND_TRANSFORM_FLY_PUSH_ROD ∧
    (cycle_state k i1 c0).push_rog_move_begin_time = t0 ∧
    (cycle_state k i2 (cycle_state k i1 c0)).transform_state = GROUND_TRANSFORM_FLY_SERVO ∧
    (cycle_state k i3 (cycle_state k i2 (cycle_state k i1 c0))).transform_state = FLY_STATE := by
  have a1 : (cycle_state k i1 c0).transform_state = GROUND_TRANSFORM_FLY_PUSH_ROD := by
    simp [cycle_state, load_input, transform_set_mode, set_mode_body, h0, he1, hu1]
  have a2 : (cycle_state k i1 c0).push_rog_move_begin_time = t0 := by
    simp [cycle_state, load_input, transform_set_mode, set_mode_body, h0, he1, hu1, ht1]
  have a3 : (cycle_state k i2 (cycle_state k i1 c0)).transform_state =
      GROUND_TRANSFORM_FLY_SERVO := by
    generalize cycle_state k i1 c0 = c1 at a1 a2
    simp [cycle_state, load_input, transform_set_mode, set_mode_body, a1, a2, he2,
      Nat.mod_eq_of_lt hrep, ht2]
  refine ⟨a1, a2, a3, ?_⟩
  generalize cycle_state k i2 (cycle_state k i1 c0) = c2 at a3
  obtain ⟨h1, h2, h3, h4⟩ := hs3
  simp [cycle_state, load_input, transform_set_mode, set_mode_body, a3, he3, h1, h2, h3, h4]

/-- Witness for the amended C11: ticks 10, 16 and 17 with elongation
duration 5; the third cycle sees both servos at rest at 100 and 200. -/
theorem C11_ground_to_fly_scenario_amended_witness :
    (cycle_state sampleConfig
      (sampleInputServo switch_e.SW_UP switch_e.SW_UP { move := 0, pos := 100 }
        { move := 0, pos := 200 } 17)
      (cycle_state sampleConfig (sampleInput switch_e.SW_UP switch_e.SW_UP 16)
        (cycle_state sampleConfig (sampleInput switch_e.SW_UP switch_e.SW_UP 10)
          (sampleControl GROUND_STATE GROUND_STATE switch_e.SW_UP switch_e.SW_MID
            restServo restServo 0)))).transform_state = FLY_STATE :=
  (C11_ground_to_fly_scenario_amended sampleConfig
    (sampleControl GROUND_STATE GROUND_STATE switch_e.SW_UP switch_e.SW_MID restServo restServo 0)
    (sampleInput switch_e.SW_UP switch_e.SW_UP 10)
    (sampleInput switch_e.SW_UP switch_e.SW_UP 16)
    (sampleInputServo switch_e.SW_UP switch_e.SW_UP { move := 0, pos := 100 }
      { move := 0, pos := 200 } 17)
    10 rfl (by decide) (by decide) rfl (by decide) (by decide) (by decide) (by decide)
    (by decide)).2.2.2

/-- C12 (recovery no-change cases): with state TRANSFORM_STOP and the enable
channel not down, a transform channel that is neither up nor down leaves the
state TRANSFORM_STOP for every remembered state; and a remembered state of
TRANSFORM_INIT or TRANSFORM_STOP leaves the state TRANSFORM_STOP for every
transform channel value. -/
theorem C12_recovery_no_change (k : Config) (now_time tick : Nat) (c : transform_control_t)
    (hst : c.transform_state = TRANSFORM_STOP)
    (hen : switch_is_down (c.remote_point k.ALL_MOVE_ENABLE_CHANNEL) = false) :
    (switch_is_up (c.remote_point k.TRANSFORM_REMOTE_CHANNEL) = false →
      switch_is_down (c.remote_point k.TRANSFORM_REMOTE_CHANNEL) = false →
      (transform_set_mode k now_time tick c).transform_state = TRANSFORM_STOP) ∧
    (c.last_transform_state = TRANSFORM_INIT ∨ c.last_transform_state = TRANSFORM_STOP →
      (transform_set_mode k now_time tick c).transform_state = TRANSFORM_STOP) := by
  constructor
  · intro hu hd
    simp [transform_set_mode, set_mode_body, hst, hen, hu, hd]
  · intro hl
    simp only [transform_set_mode, set_mode_body, hst, hen]
    rcases hl with hl | hl <;>
      cases hu : switch_is_up (c.remote_point k.TRANSFORM_REMOTE_CHANNEL) <;>
      cases hd : switch_is_down (c.remote_point k.TRANSFORM_REMOTE_CHANNEL) <;>
      simp [recover_up, recover_down, hl, hst]

/-- Witness for C12: stopped, remembered state Flying, both channels at mid. -/
theorem C12_recovery_no_change_witness :
    (transform_set_mode sampleConfig 3 3
      (sampleControl TRANSFORM_STOP FLY_STATE switch_e.SW_MID switch_e.SW_MID
        restServo restServo 0)).transform_state = TRANSFORM_STOP :=
  (C12_recovery_no_change sampleConfig 3 3
    (sampleControl TRANSFORM_STOP FLY_STATE switch_e.SW_MID switch_e.SW_MID
      restServo restServo 0) rfl (by decide)).1 (by decide) (by decide)

/-- C13, evaluation at the failing input: a stopped block that remembers
Grounded and holds the stale timer value 0 sees the enable channel at mid
and the transform channel up at tick 1000. The tick enters
GroundToFly_PushRod from a different state, but `push_rog_move_begin_time`
stays 0 instead of becoming 1000; the next tick, at 1001, already yields
GroundToFly_Servo although the duration is 5. The entry from Grounded at
tick 1000 (line 178) does store 1000. -/
theorem C13_recovery_entry_keeps_stale_timer :
    (transform_set_mode sampleConfig 1000 1000
      (sampleControl TRANSFORM_STOP GROUND_STATE switch_e.SW_MID switch_e.SW_UP
        restServo restServo 0)).transform_state = GROUND_TRANSFORM_FLY_PUSH_ROD ∧
    (transform_set_mode sampleConfig 1000 1000
      (sampleControl TRANSFORM_STOP GROUND_STATE switch_e.SW_MID switch_e.SW_UP
        restServo restServo 0)).push_rog_move_begin_time = 0 ∧
    (transform_set_mode sampleConfig 1001 1001
      (transform_set_mode sampleConfig 1000 1000
        (sampleControl TRANSFORM_STOP GROUND_STATE switch_e.SW_MID switch_e.SW_UP
          restServo restServo 0))).transform_state = GROUND_TRANSFORM_FLY_SERVO ∧
    (transform_set_mode sampleConfig 1000 1000
      (sampleControl GROUND_STATE GROUND_STATE switch_e.SW_MID switch_e.SW_UP
        restServo restServo 0)).push_rog_move_begin_time = 1000 := by
  decide

/-- C14 (update of the remembered state): for every control block and every
input, after one tick of `transform_set_mode` the field
`last_transform_state` equals the value that `transform_state` held at tick
entry, whichever branch ran and whether or not the state changed. -/
theorem C14_previous_state_update (k : Config) (now_time tick : Nat)
    (c : transform_control_t) :
    (transform_set_mode k now_time tick c).last_transform_state = c.transform_state := by
  simp [transform_set_mode]

/-- C15 (push-rod-transition group): in GroundToFly_PushRod with a different
remembered state `transform_set_control` issues exactly: elongate left,
elongate right (both at PUSH_ROG_ON_PWM), left servo torque disabled, right
servo torque disabled; in FlyToGround_PushRod with a different remembered
state it issues exactly: shorten left, shorten right (both at
PUSH_ROG_ON_PWM), left servo torque disabled, right servo torque disabled;
with the remembered state equal to the state it issues no command in either
case. -/
theorem C15_push_rod_group_commands (k : Config) (c : transform_control_t) :
    (c.transform_state = GROUND_TRANSFORM_FLY_PUSH_ROD →
      (c.last_transform_state ≠ GROUND_TRANSFORM_FLY_PUSH_ROD →
        transform_set_control k c =
          [Cmd.elongate_left_push_rog k.PUSH_ROG_ON_PWM,
           Cmd.elongate_right_push_rog k.PUSH_ROG_ON_PWM,
           Cmd.ft_servo_app_torque_enable k.LEFT_SERVO_ID 0,
           Cmd.ft_servo_app_torque_enable k.RIGHT_SERVO_ID 0]) ∧
      (c.last_transform_state = GROUND_TRANSFORM_FLY_PUSH_ROD →
        transform_set_control k c = [])) ∧
    (c.transform_state = FLY_TRANSFORM_GROUND_PUSH_ROD →
      (c.last_transform_state ≠ FLY_TRANSFORM_GROUND_PUSH_ROD →
        transform_set_control k c =
          [Cmd.shorten_left_push_rog k.PUSH_ROG_ON_PWM,
           Cmd.shorten_right_push_rog k.PUSH_ROG_ON_PWM,
           Cmd.ft_servo_app_torque_enable k.LEFT_SERVO_ID 0,
           Cmd.ft_servo_app_torque_enable k.RIGHT_SERVO_ID 0]) ∧
      (c.last_transform_state = FLY_TRANSFORM_GROUND_PUSH_ROD →
        transform_set_control k c = [])) := by
  refine ⟨fun hst => ⟨fun hl => ?_, fun hl => ?_⟩, fun hst => ⟨fun hl => ?_, fun hl => ?_⟩⟩ <;>
    simp [transform_set_control, hst, hl]

/-- Witness for C15: entry to GroundToFly_PushRod from Grounded. -/
theorem C15_push_rod_group_commands_witness :
    transform_set_control sampleConfig
      (sampleControl GROUND_TRANSFORM_FLY_PUSH_ROD GROUND_STATE switch_e.SW_UP switch_e.SW_UP
        restServo restServo 0) =
      [Cmd.elongate_left_push_rog sampleConfig.PUSH_ROG_ON_PWM,
       Cmd.elongate_right_push_rog sampleConfig.PUSH_ROG_ON_PWM,
       Cmd.ft_servo_app_torque_enable sampleConfig.LEFT_SERVO_ID 0,
       Cmd.ft_servo_app_torque_enable sampleConfig.RIGHT_SERVO_ID 0] :=
  ((C15_push_rod_group_commands sampleConfig
    (sampleControl GROUND_TRANSFORM_FLY_PUSH_ROD GROUND_STATE switch_e.SW_UP switch_e.SW_UP
      restServo restServo 0)).1 rfl).1 (by decide)

/-- C16, counterexample (elongation duration 5, counter modulus 2^32). First,
without any wrap, start 10 and now 15: the modular elapsed time is 5, not
below the duration, yet the state stays GroundToFly_PushRod. Second, start
2^32 - 3 and now 2^32 - 2: the modular elapsed time is 1, below the
duration, yet the tick yields GroundToFly_Servo. Third, start 2^32 - 10 and
now 3 (wrapped): the modular elapsed time is 13, yet the state stays
GroundToFly_PushRod. -/
theorem C16_wraparound_timeout_counterexample :
    (spec_elapsed 15 10 ≥ sampleConfig.PUSH_ROG_ELONGATE_NEED_TIME ∧
      (transform_set_mode sampleConfig 15 15
        (sampleControl GROUND_TRANSFORM_FLY_PUSH_ROD GROUND_TRANSFORM_FLY_PUSH_ROD
          switch_e.SW_MID switch_e.SW_UP restServo restServo 10)).transform_state =
        GROUND_TRANSFORM_FLY_PUSH_ROD) ∧
    (spec_elapsed 4294967294 4294967293 < sampleConfig.PUSH_ROG_ELONGATE_NEED_TIME ∧
      (transform_set_mode sampleConfig 4294967294 4294967294
        (sampleControl GROUND_TRANSFORM_FLY_PUSH_ROD GROUND_TRANSFORM_FLY_PUSH_ROD
          switch_e.SW_MID switch_e.SW_UP restServo restServo 4294967293)).transform_state =
        GROUND_TRANSFORM_FLY_SERVO) ∧
    (spec_elapsed 3 4294967286 ≥ sampleConfig.PUSH_ROG_ELONGATE_NEED_TIME ∧
      (transform_set_mode sampleConfig 3 3
        (sampleControl GROUND_TRANSFORM_FLY_PUSH_ROD GROUND_TRANSFORM_FLY_PUSH_ROD
          switch_e.SW_MID switch_e.SW_UP restServo restServo 4294967286)).transform_state =
        GROUND_TRANSFORM_FLY_PUSH_ROD) := by
  decide

/-- C16, amended (timeout of the code in modular terms): with tick times as
32-bit counters, in GroundToFly_PushRod with the enable channel not down,
whenever neither or both of `now` and start + PUSH_ROG_ELONGATE_NEED_TIME
have wrapped (start at most now and the sum below 2^32, or now below start
and the sum at least 2^32), the tick yields GroundToFly_Servo if and only
if the elapsed time (now - start) mod 2^32 is strictly greater than the
duration; otherwise the state is unchanged. -/
theorem C16_wraparound_timeout_amended (k : Config) (now_time tick : Nat)
    (c : transform_control_t)
    (hen : switch_is_down (c.remote_point k.ALL_MOVE_ENABLE_CHANNEL) = false)
    (hst : c.transform_state = GROUND_TRANSFORM_FLY_PUSH_ROD)
    (hnow : now_time < TICK_MOD) (hbeg : c.push_rog_move_begin_time < TICK_MOD)
    (hdur : k.PUSH_ROG_ELONGATE_NEED_TIME < TICK_MOD)
    (hside : (c.push_rog_move_begin_time ≤ now_time ∧
        c.push_rog_move_begin_time + k.PUSH_ROG_ELONGATE_NEED_TIME < TICK_MOD) ∨
      (now_time < c.push_rog_move_begin_time ∧
        TICK_MOD ≤ c.push_rog_move_begin_time + k.PUSH_ROG_ELONGATE_NEED_TIME)) :
    ((transform_set_mode k now_time tick c).transform_state = GROUND_TRANSFORM_FLY_SERVO ↔
      spec_elapsed now_time c.push_rog_move_begin_time > k.PUSH_ROG_ELONGATE_NEED_TIME) ∧
    (¬ spec_elapsed now_time c.push_rog_move_begin_time > k.PUSH_ROG_ELONGATE_NEED_TIME →
      (transform_set_mode k now_time tick c).transform_state =
        GROUND_TRANSFORM_FLY_PUSH_ROD) := by
  have hiff : now_time > (c.push_rog_move_begin_time + k.PUSH_ROG_ELONGATE_NEED_TIME) % TICK_MOD ↔
      spec_elapsed now_time c.push_rog_move_begin_time > k.PUSH_ROG_ELONGATE_NEED_TIME := by
    simp only [spec_elapsed, TICK_MOD] at *
    norm_num at *
    omega
  by_cases hgt : now_time >
      (c.push_rog_move_begin_time + k.PUSH_ROG_ELONGATE_NEED_TIME) % TICK_MOD
  · have hs := hiff.mp hgt
    have hval : (transform_set_mode k now_time tick c).transform_state =
        GROUND_TRANSFORM_FLY_SERVO := by
      simp only [transform_set_mode, set_mode_body, hst, hen]
      simp [hgt]
    exact ⟨⟨fun _ => hs, fun _ => hval⟩, fun h => absurd hs h⟩
  · have hs : ¬ spec_elapsed now_time c.push_rog_move_begin_time >
        k.PUSH_ROG_ELONGATE_NEED_TIME := fun h => hgt (hiff.mpr h)
    have hval : (transform_set_mode k now_time tick c).transform_state =
        GROUND_TRANSFORM_FLY_PUSH_ROD := by
      simp only [transform_set_mode, set_mode_body, hst, hen]
      simp [hgt, hst]
    refine ⟨⟨fun h => ?_, fun h => absurd h hs⟩, fun _ => hval⟩
    rw [hval] at h
    exact absurd h (by decide)

/-- Witness for the amended C16: both `now` and start + duration have
wrapped (start 2^32 - 3, duration 5, now 4): the elapsed time is 7 and the
tick yields GroundToFly_Servo. -/
theorem C16_wraparound_timeout_amended_witness :
    (transform_set_mode sampleConfig 4 4
      (sampleControl GROUND_TRANSFORM_FLY_PUSH_ROD GROUND_TRANSFORM_FLY_PUSH_ROD
        switch_e.SW_MID switch_e.SW_UP restServo restServo 4294967293)).transform_state =
      GROUND_TRANSFORM_FLY_SERVO :=
  (C16_wraparound_timeout_amended sampleConfig 4 4
    (sampleControl GROUND_TRANSFORM_FLY_PUSH_ROD GROUND_TRANSFORM_FLY_PUSH_ROD
      switch_e.SW_MID switch_e.SW_UP restServo restServo 4294967293)
    (by decide) rfl (by decide) (by decide) (by decide) (Or.inr (by decide))).1.mpr (by decide)

/-- C17 (stale timer is never consulted): two control blocks that differ
only in `push_rog_move_begin_time` and whose state is not a push-rod
transient state reach, with the same inputs, the same state and the same
remembered state after one tick. -/
theorem C17_stale_timer_not_consulted (k : Config) (now_time tick : Nat)
    (c : transform_control_t) (b1 b2 : Nat)
    (hst : c.transform_state ≠ GROUND_TRANSFORM_FLY_PUSH_ROD ∧
      c.transform_state ≠ FLY_TRANSFORM_GROUND_PUSH_ROD) :
    (transform_set_mode k now_time tick
        { c with push_rog_move_begin_time := b1 }).transform_state =
      (transform_set_mode k now_time tick
        { c with push_rog_move_begin_time := b2 }).transform_state ∧
    (transform_set_mode k now_time tick
        { c with push_rog_move_begin_time := b1 }).last_transform_state =
      (transform_set_mode k now_time tick
        { c with push_rog_move_begin_time := b2 }).last_transform_state := by
  obtain ⟨st, last, sl, sr, rp, bt⟩ := c
  obtain ⟨h1, h2⟩ := hst
  refine ⟨?_, rfl⟩
  simp only [transform_set_mode, set_mode_body]
  cases he : switch_is_down (rp k.ALL_MOVE_ENABLE_CHANNEL) <;>
    cases hu : switch_is_up (rp k.TRANSFORM_REMOTE_CHANNEL) <;>
    cases hd : switch_is_down (rp k.TRANSFORM_REMOTE_CHANNEL) <;>
    cases st <;> simp at h1 h2 <;>
    simp [recover_up, recover_down] <;>
    first
      | (cases last <;> rfl)
      | (split_ifs <;> rfl)

/-- Witness for C17: Flying with the transform channel down; stored timer
values 0 and 77. -/
theorem C17_stale_timer_not_consulted_witness :
    (transform_set_mode sampleConfig 50 50
      { sampleControl FLY_STATE FLY_STATE switch_e.SW_UP switch_e.SW_DOWN restServo restServo 5
        with push_rog_move_begin_time := 0 }).transform_state =
    (transform_set_mode sampleConfig 50 50
      { sampleControl FLY_STATE FLY_STATE switch_e.SW_UP switch_e.SW_DOWN restServo restServo 5
        with push_rog_move_begin_time := 77 }).transform_state :=
  (C17_stale_timer_not_consulted sampleConfig 50 50
    (sampleControl FLY_STATE FLY_STATE switch_e.SW_UP switch_e.SW_DOWN restServo restServo 5)
    0 77 (by decide)).1

/-- C18 (TRANSFORM_STOP is absorbing once the pre-stop state is forgotten):
with state TRANSFORM_STOP and remembered state TRANSFORM_STOP or
TRANSFORM_INIT, every tick, whatever the enable channel, transform channel,
servo feedback and tick time, yields state TRANSFORM_STOP and remembered
state TRANSFORM_STOP; every run of cycles from such a block stays in
TRANSFORM_STOP; after two consecutive cycles with the enable channel down,
and after one cycle from TRANSFORM_STOP with the enable channel not down
and the transform channel neither up nor down, every further run of cycles
stays in TRANSFORM_STOP. -/
theorem C18_stopped_absorbing (k : Config) :
    (∀ (c : transform_control_t) (now_time tick : Nat),
      c.transform_state = TRANSFORM_STOP →
      (c.last_transform_state = TRANSFORM_STOP ∨ c.last_transform_state = TRANSFORM_INIT) →
      (transform_set_mode k now_time tick c).transform_state = TRANSFORM_STOP ∧
      (transform_set_mode k now_time tick c).last_transform_state = TRANSFORM_STOP) ∧
    (∀ (c : transform_control_t) (is : List cycle_input),
      c.transform_state = TRANSFORM_STOP →
      (c.last_transform_state = TRANSFORM_STOP ∨ c.last_transform_state = TRANSFORM_INIT) →
      (∀ s ∈ run_states k is c, s = TRANSFORM_STOP) ∧
      (run_cycles k is c).transform_state = TRANSFORM_STOP) ∧
    (∀ (c : transform_control_t) (i1 i2 : cycle_input) (is : List cycle_input),
      switch_is_down (i1.remote_point k.ALL_MOVE_ENABLE_CHANNEL) = true →
      switch_is_down (i2.remote_point k.ALL_MOVE_ENABLE_CHANNEL) = true →
      (∀ s ∈ run_states k is (cycle_state k i2 (cycle_state k i1 c)), s = TRANSFORM_STOP) ∧
      (run_cycles k is (cycle_state k i2 (cycle_state k i1 c))).transform_state =
        TRANSFORM_STOP) ∧
    (∀ (c : transform_control_t) (i : cycle_input) (is : List cycle_input),
      c.transform_state = TRANSFORM_STOP →
      switch_is_down (i.remote_point k.ALL_MOVE_ENABLE_CHANNEL) = false →
      switch_is_up (i.remote_point k.TRANSFORM_REMOTE_CHANNEL) = false →
      switch_is_down (i.remote_point k.TRANSFORM_REMOTE_CHANNEL) = false →
      (∀ s ∈ run_states k is (cycle_state k i c), s = TRANSFORM_STOP) ∧
      (run_cycles k is (cycle_state k i c)).transform_state = TRANSFORM_STOP) := by
  refine ⟨?_, ?_, ?_, ?_⟩
  · intro c now_time tick hst hl
    exact ⟨set_mode_stop_absorbing k now_time tick c hst hl, by rw [set_mode_last, hst]⟩
  · intro c is hst hl
    exact run_stop_absorbing k is c hst hl
  · intro c i1 i2 is h1 h2
    have a1 : (cycle_state k i1 c).transform_state = TRANSFORM_STOP := by
      simp [cycle_state, load_input, transform_set_mode, set_mode_body, h1]
    have a2 : (cycle_state k i2 (cycle_state k i1 c)).transform_state = TRANSFORM_STOP := by
      simp [cycle_state, load_input, transform_set_mode, set_mode_body, h2]
    have a3 : (cycle_state k i2 (cycle_state k i1 c)).last_transform_state =
        TRANSFORM_STOP := by
      rw [cycle_state_last, a1]
    exact run_stop_absorbing k is _ a2 (Or.inl a3)
  · intro c i is hst he hu hd
    have a1 : (cycle_state k i c).transform_state = TRANSFORM_STOP := by
      simp [cycle_state, load_input, transform_set_mode, set_mode_body, hst, he, hu, hd]
    have a2 : (cycle_state k i c).last_transform_state = TRANSFORM_STOP := by
      rw [cycle_state_last, hst]
    exact run_stop_absorbing k is _ a1 (Or.inl a2)

/-- Witness for C18: a flying robot sees the enable channel down at ticks 1
and 2; afterwards the enable channel is up with the transform channel up,
then down: the state is TRANSFORM_STOP after the run. -/
theorem C18_stopped_absorbing_witness :
    (run_cycles sampleConfig
      [sampleInput switch_e.SW_UP switch_e.SW_UP 3, sampleInput switch_e.SW_UP switch_e.SW_DOWN 4]
      (cycle_state sampleConfig (sampleInput switch_e.SW_DOWN switch_e.SW_UP 2)
        (cycle_state sampleConfig (sampleInput switch_e.SW_DOWN switch_e.SW_UP 1)
          (sampleControl FLY_STATE FLY_STATE switch_e.SW_UP switch_e.SW_UP
            restServo restServo 0)))).transform_state = TRANSFORM_STOP :=
  ((C18_stopped_absorbing sampleConfig).2.2.1
    (sampleControl FLY_STATE FLY_STATE switch_e.SW_UP switch_e.SW_UP restServo restServo 0)
    (sampleInput switch_e.SW_DOWN switch_e.SW_UP 1)
    (sampleInput switch_e.SW_DOWN switch_e.SW_UP 2)
    [sampleInput switch_e.SW_UP switch_e.SW_UP 3, sampleInput switch_e.SW_UP switch_e.SW_DOWN 4]
    (by decide) (by decide)).2

/-- C19 (actuator mutual exclusion): for every state and remembered state,
the command list of `transform_set_control` never contains both a push-rod
drive command and a servo position command; a list that contains a push-rod
drive command also disables both servo torques; a list that contains a servo
position command also switches both push rods off. -/
theorem C19_actuator_mutual_exclusion (k : Config) (c : transform_control_t) :
    ¬ ((transform_set_control k c).any is_push_rod_drive = true ∧
       (transform_set_control k c).any is_servo_position = true) ∧
    ((transform_set_control k c).any is_push_rod_drive = true →
      Cmd.ft_servo_app_torque_enable k.LEFT_SERVO_ID 0 ∈ transform_set_control k c ∧
      Cmd.ft_servo_app_torque_enable k.RIGHT_SERVO_ID 0 ∈ transform_set_control k c) ∧
    ((transform_set_control k c).any is_servo_position = true →
      Cmd.left_push_rog_off ∈ transform_set_control k c ∧
      Cmd.right_push_rog_off ∈ transform_set_control k c) := by
  obtain ⟨st, last, sl, sr, rp, bt⟩ := c
  cases st <;> cases last <;>
    simp [transform_set_control, is_push_rod_drive, is_servo_position]

/-- C20, counterexample: for the input -32768 the negation 32768 is converted
back to `int16_t` as -32768, so the result is negative and is not the
absolute value 32768. -/
theorem C20_int16_abs_counterexample :
    int16_abs (-32768) = -32768 ∧ int16_abs (-32768) < 0 ∧
    int16_abs (-32768) ≠ |(-32768 : Int)| := by
  decide

/-- C20, amended (`int16_abs` on the 16-bit range): for every `int16_t`
input other than -32768 the result is non-negative and equals the absolute
value of the input; for the input -32768 the result is -32768. -/
theorem C20_int16_abs_amended (val : Int) (hlo : -32768 ≤ val) (hhi : val ≤ 32767) :
    (val ≠ -32768 → int16_abs val = |val| ∧ 0 ≤ int16_abs val) ∧
    (val = -32768 → int16_abs val = -32768) := by
  constructor
  · intro hne
    by_cases hneg : val < 0
    · have h1 : int16_abs val = -val := by
        simp only [int16_abs, to_int16, if_pos hneg]
        omega
      rw [h1, abs_of_neg hneg]
      exact ⟨rfl, by omega⟩
    · have h1 : int16_abs val = val := by
        simp only [int16_abs, if_neg hneg]
      rw [h1, abs_of_nonneg (by omega)]
      exact ⟨rfl, by omega⟩
  · intro h
    subst h
    decide

/-- Witness for the amended C20: the input -5 gives 5. -/
theorem C20_int16_abs_amended_witness :
    int16_abs (-5) = |(-5 : Int)| ∧ 0 ≤ int16_abs (-5) :=
  (C20_int16_abs_amended (-5) (by decide) (by decide)).1 (by decide)

end Transform
